import Mathlib

/-!
# Verification of the Brent oil change-point analysis core

A shallow embedding of the change-point model module
(`src/models/change_point_model.py`) and the event-association module
(`src/models/event_association.py`), together with theorems settling the
specification claims about them.

Conventions of the embedding:
* Python floats are modelled as exact rationals (`ℚ`) where the code performs
  only field operations, and as real numbers (`ℝ`) where a transcendental
  function (`np.exp`) is involved.
* Calendar timestamps are modelled by their day number (`ℤ`); pandas'
  `(ts1 - ts2).dt.days` is then exact integer subtraction.
* Fallible code (Python `raise`) is modelled with `Except String`, carrying the
  message of the raised exception.
* Stateful methods are modelled by explicit state passing: a method that may
  write to `self` returns a pair of its result and the updated object state.
-/

/-- `np.mean` over a list of rationals: sum divided by length.  (For the empty
list `Rat` division by zero yields `0` where numpy would yield `nan`; every
theorem using means on possibly-empty input carries a nonemptiness
hypothesis.) -/
def npMean (l : List ℚ) : ℚ := l.sum / (l.length : ℚ)

/-- The vector of expected means built by `BayesianChangePointModel.build_model`
(`src/models/change_point_model.py`, line 86):
`mu = pm.math.switch(tau >= np.arange(self.n_obs), mu1, mu2)`.
`pm.math.switch(c, a, b)` selects `a` where `c` holds, so observation `i` has
expected mean `mu1` exactly when `tau >= i`, and `mu2` otherwise. -/
def switch_mu (n : ℕ) (tau : ℤ) (mu1 mu2 : ℚ) : List ℚ :=
  (List.range n).map (fun (i : ℕ) => if (i : ℤ) ≤ tau then mu1 else mu2)

/-- The state of a `BayesianChangePointModel` instance: the observed series,
its length, and whether `build_model` has been called (`self.model is None`
in the source is the unbuilt state). -/
structure CPModel where
  data : List ℚ
  n_obs : ℕ
  model_built : Bool
deriving DecidableEq

/-- `BayesianChangePointModel.__init__` (lines 40–51): raises
`ChangePointModelError("Data must contain at least 10 observations")` when the
series has fewer than 10 observations, otherwise stores the data with no model
built yet. -/
def init_change_point_model (data : List ℚ) : Except String CPModel :=
  if data.length < 10 then
    Except.error "Data must contain at least 10 observations"
  else
    Except.ok { data := data, n_obs := data.length, model_built := false }

/-- `BayesianChangePointModel.build_model` (lines 53–104) as a state
transition: after it succeeds, `self.model` is set.  The probabilistic content
of the model graph is captured separately by `switch_mu`. -/
def build_model (m : CPModel) : CPModel := { m with model_built := true }

/-- `BayesianChangePointModel.sample` (lines 106–155): raises unless the model
has been built (the guard at lines 128–131, whose message is re-wrapped by the
surrounding `except` clause at lines 152–155); otherwise the multi-chain draws
are produced by the external MCMC backend (`pm.sample`), modelled here as an
oracle argument `mcmc_draws` (chains × draws). -/
def sample (m : CPModel) (mcmc_draws : List (List ℚ)) :
    Except String (List (List ℚ)) :=
  if m.model_built then Except.ok mcmc_draws
  else Except.error
    "Error during sampling: Model must be built before sampling. Call build_model() first."

/-- The modelling/sampling pipeline: construct the model object, build the
model graph, then sample.  This is the composition every caller in the
repository performs (e.g. `notebooks/02b_build_change_point_model.py`). -/
def sampling_pipeline (data : List ℚ) (mcmc_draws : List (List ℚ)) :
    Except String (List (List ℚ)) :=
  (init_change_point_model data).bind (fun m => sample (build_model m) mcmc_draws)

/-- The numeric core of `BayesianChangePointModel.get_parameter_posteriors`
(lines 354–385), applied to the already-flattened per-draw samples of
`mu1`, `mu2` and `sigma`.  Only the fields referenced by the claims are
modelled; the median/std/percentile fields are numpy library reductions no
claim refers to.  `impact_samples` is numpy's elementwise (paired per-draw)
subtraction `mu2_samples - mu1_samples` (line 376), and
`impact_percent = (np.mean(impact_samples) / np.mean(mu1_samples)) * 100`
(line 383). -/
structure ParameterPosteriors where
  mu1_mean : ℚ
  mu2_mean : ℚ
  sigma_mean : ℚ
  impact_samples : List ℚ
  impact_mean : ℚ
  impact_percent : ℚ
deriving DecidableEq

def get_parameter_posteriors (mu1_samples mu2_samples sigma_samples : List ℚ) :
    ParameterPosteriors :=
  let impact_samples := List.zipWith (fun a b => a - b) mu2_samples mu1_samples
  { mu1_mean := npMean mu1_samples
    mu2_mean := npMean mu2_samples
    sigma_mean := npMean sigma_samples
    impact_samples := impact_samples
    impact_mean := npMean impact_samples
    impact_percent := (npMean impact_samples / npMean mu1_samples) * 100 }

/-- Sum of an elementwise difference of equally long lists. -/
theorem sum_zipWith_sub (a b : List ℚ) (h : a.length = b.length) :
    (List.zipWith (fun x y => x - y) a b).sum = a.sum - b.sum := by
  induction a generalizing b with
  | nil => cases b with
    | nil => simp
    | cons y ys => simp at h
  | cons x xs ih =>
    cases b with
    | nil => simp at h
    | cons y ys =>
      simp only [List.length_cons, Nat.succ.injEq] at h
      simp only [List.zipWith_cons_cons, List.sum_cons, ih ys h]
      ring

/-- C1 counterexample: at the concrete instance `n = 2`, `tau = 1`,
`mu1 = 0`, `mu2 = 1`, observation index `i = 1` satisfies `i ≥ tau`, so the
claim asserts its expected mean is `mu2 = 1`; the model built by the code
assigns it `mu1 = 0` (because `pm.math.switch(tau >= i, mu1, mu2)` selects
`mu1` when `tau >= i`, which holds at `i = tau`). -/
theorem switch_mu_boundary_counterexample :
    ¬ ((1 : ℤ) ≥ 1 → (switch_mu 2 1 0 1).getD 1 0 = 1) := by
  decide

/-- C1 (amended): in the generative model, observation `i` is assigned
`mu_before` (`mu1`) when `i ≤ tau` and `mu_after` (`mu2`) when `i > tau`; in
particular the index exactly equal to `tau` is assigned to the *before*
regime. -/
theorem switch_mu_regimes (n : ℕ) (tau : ℤ) (mu1 mu2 : ℚ) (i : ℕ) (hi : i < n) :
    (((i : ℤ) ≤ tau → (switch_mu n tau mu1 mu2).getD i 0 = mu1) ∧
      (tau < (i : ℤ) → (switch_mu n tau mu1 mu2).getD i 0 = mu2)) ∧
    ((i : ℤ) = tau → (switch_mu n tau mu1 mu2).getD i 0 = mu1) := by
  have hlen : i < (switch_mu n tau mu1 mu2).length := by
    simpa only [switch_mu, List.length_map, List.length_range] using hi
  have hval : (switch_mu n tau mu1 mu2).getD i 0 =
      (if (i : ℤ) ≤ tau then mu1 else mu2) := by
    rw [List.getD_eq_getElem _ _ hlen]
    simp only [switch_mu, List.getElem_map, List.getElem_range]
  refine ⟨⟨fun h => ?_, fun h => ?_⟩, fun h => ?_⟩
  · rw [hval, if_pos h]
  · rw [hval, if_neg (not_le.mpr h)]
  · rw [hval, if_pos (le_of_eq h)]

/-- C1 witness: at `n = 4`, `tau = 2`, `mu1 = 5`, `mu2 = 7`, index `1 < tau`
gets `mu1`, index `3 > tau` gets `mu2`, and the boundary index `2 = tau` gets
`mu1`. -/
theorem switch_mu_regimes_witness :
    (switch_mu 4 2 5 7).getD 1 0 = 5 ∧ (switch_mu 4 2 5 7).getD 3 0 = 7 ∧
      (switch_mu 4 2 5 7).getD 2 0 = 5 :=
  ⟨((switch_mu_regimes 4 2 5 7 1 (by decide)).1).1 (by decide),
   ((switch_mu_regimes 4 2 5 7 3 (by decide)).1).2 (by decide),
   (switch_mu_regimes 4 2 5 7 2 (by decide)).2 (by decide)⟩

/-- C8: for every observation series with fewer than 10 observations, the
modelling/sampling pipeline fails with the `ChangePointModelError` stating the
series must contain at least 10 observations — regardless of what the MCMC
backend would have produced — and consequently no posterior draws are ever
returned. -/
theorem pipeline_insufficient_data (data : List ℚ) (mcmc_draws : List (List ℚ))
    (h : data.length < 10) :
    sampling_pipeline data mcmc_draws =
        Except.error "Data must contain at least 10 observations" ∧
      ∀ ds : List (List ℚ), sampling_pipeline data mcmc_draws ≠ Except.ok ds := by
  have hinit : init_change_point_model data =
      Except.error "Data must contain at least 10 observations" := by
    simp [init_change_point_model, h]
  constructor
  · simp [sampling_pipeline, hinit, Except.bind]
  · intro ds
    simp [sampling_pipeline, hinit, Except.bind]

/-- C8 witness: a nine-element series is rejected. -/
theorem pipeline_insufficient_data_witness :
    sampling_pipeline [1, 2, 3, 4, 5, 6, 7, 8, 9] [[0]] =
      Except.error "Data must contain at least 10 observations" :=
  (pipeline_insufficient_data [1, 2, 3, 4, 5, 6, 7, 8, 9] [[0]] (by decide)).1

/-- C5: `get_parameter_posteriors` computes the impact draws by paired
per-draw subtraction (`mu2_samples - mu1_samples`, numpy elementwise), and for
every pair of equal-length draw collections the resulting `impact_mean` equals
`mean(mu2 draws) - mean(mu1 draws)` — exactly, in the rational model, hence in
particular within any floating tolerance. -/
theorem impact_mean_eq_diff_of_means (mu1s mu2s sigmas : List ℚ)
    (h : mu1s.length = mu2s.length) :
    (get_parameter_posteriors mu1s mu2s sigmas).impact_samples =
        List.zipWith (fun a b => a - b) mu2s mu1s ∧
      (get_parameter_posteriors mu1s mu2s sigmas).impact_mean =
        npMean mu2s - npMean mu1s := by
  refine ⟨rfl, ?_⟩
  have hlen : (List.zipWith (fun a b => a - b) mu2s mu1s).length = mu2s.length := by
    simp [List.length_zipWith, h]
  have hsum := sum_zipWith_sub mu2s mu1s h.symm
  simp only [get_parameter_posteriors, npMean, hlen, hsum, h, sub_div]

/-- C5 witness: with `mu1` draws `[1, 3]` and `mu2` draws `[2, 6]`, the impact
draws are `[1, 3]` and the impact mean is `4 - 2 = 2`. -/
theorem impact_mean_eq_diff_of_means_witness :
    (get_parameter_posteriors [1, 3] [2, 6] [1, 1]).impact_samples = [1, 3] ∧
      (get_parameter_posteriors [1, 3] [2, 6] [1, 1]).impact_mean =
        npMean [2, 6] - npMean [1, 3] := by
  have h := impact_mean_eq_diff_of_means [1, 3] [2, 6] [1, 1] (by decide)
  refine ⟨?_, h.2⟩
  rw [h.1]
  norm_num [List.zipWith]

/-! ## Event association module (`src/models/event_association.py`) -/

/-- A row of the static event catalog (`Event_Date`, `Event_Description`,
`Event_Type`, `Region`, `Impact_Level`), the date modelled as a day number. -/
structure EventRecord where
  event_date : ℤ
  event_description : String
  event_type : String
  region : String
  impact_level : String
deriving DecidableEq

/-- A catalog row as returned by `find_nearby_events`: the record together
with the two proximity columns `Days_Difference` and `Days_Abs` added at
lines 92–93. -/
structure AnnotatedEvent where
  event : EventRecord
  days_difference : ℤ
  days_abs : ℤ
deriving DecidableEq

/-- The state of an `EventAssociator` instance.  `events := none` models
`self.events is None`; the constructor either loads the catalog (sorted by
`Event_Date`, line 53) or raises, so a constructed instance always holds
`some` catalog. -/
structure EventAssociator where
  events : Option (List EventRecord)
deriving DecidableEq

/-- The comparison used by `nearby.sort_values('Days_Abs')` (line 96). -/
def days_abs_le (a b : AnnotatedEvent) : Prop := a.days_abs ≤ b.days_abs

instance days_abs_le_decidable : DecidableRel days_abs_le := fun _ _ => Int.decLe _ _

/-- The window filter of lines 86–89: `start_date <= Event_Date <= end_date`. -/
def in_window (start_date end_date : ℤ) (e : EventRecord) : Bool :=
  decide (start_date ≤ e.event_date) && decide (e.event_date ≤ end_date)

/-- The proximity annotation of lines 92–93:
`Days_Difference = (Event_Date - change_point_date).dt.days` (exact integer
day difference for day-granularity timestamps) and `Days_Abs` its absolute
value. -/
def annotate (change_point_date : ℤ) (e : EventRecord) : AnnotatedEvent :=
  { event := e
    days_difference := e.event_date - change_point_date
    days_abs := |e.event_date - change_point_date| }

/-- `EventAssociator.find_nearby_events` (lines 62–103), with the object state
threaded explicitly (the method writes only to the local copy `nearby`, never
to `self`).  `sort_values('Days_Abs')` (line 96) invokes numpy's default
introsort: a deterministic comparison sort, ascending in the key, whose
ordering of *equal* keys the library leaves unspecified (it is stable only in
the small-partition regime where introsort degenerates to insertion sort).
The embedding must pick one concrete deterministic function for it and picks
`List.insertionSort`; only the properties the library contract actually
promises — a permutation of the input, ascending in `Days_Abs`, the same
output on the same input — are relied on by the theorems below, and no
theorem derives a tie-order guarantee from this choice.  The raise at line 79
is re-wrapped by the method's `except` clause (lines 100–103). -/
def find_nearby_events (s : EventAssociator) (change_point_date : ℤ)
    (window_days : ℤ) : Except String (List AnnotatedEvent) × EventAssociator :=
  match s.events with
  | none => (Except.error "Error finding nearby events: Events not loaded", s)
  | some events =>
      let start_date := change_point_date - window_days
      let end_date := change_point_date + window_days
      let nearby :=
        (events.filter (in_window start_date end_date)).map (annotate change_point_date)
      (Except.ok (List.insertionSort days_abs_le nearby), s)

/-- The association dictionary built by `associate_change_point`
(lines 146–159). -/
structure Association where
  change_point_date : ℤ
  mu1 : ℝ
  mu2 : ℝ
  impact_log : ℝ
  impact_percent : ℝ
  impact_usd : Option ℝ
  price_before : Option ℝ
  price_after : Option ℝ
  nearby_events : List AnnotatedEvent
  closest_event : Option AnnotatedEvent
  window_days : ℤ

/-- `EventAssociator.associate_change_point` (lines 105–166):
`impact_log = mu2 - mu1`, `impact_percent = (np.exp(impact_log) - 1) * 100`
(lines 133–134), optional USD impact (lines 137–139), closest event = first
row of the proximity-sorted nearby list (lines 142–144). -/
noncomputable def associate_change_point (s : EventAssociator)
    (change_point_date : ℤ) (mu1 mu2 : ℝ) (price_before price_after : Option ℝ)
    (window_days : ℤ) : Except String Association × EventAssociator :=
  match find_nearby_events s change_point_date window_days with
  | (Except.error e, s') =>
      (Except.error ("Error associating change point: " ++ e), s')
  | (Except.ok nearby, s') =>
      let impact_log := mu2 - mu1
      let impact_percent := (Real.exp impact_log - 1) * 100
      let impact_usd :=
        match price_before, price_after with
        | some pb, some pa => some (pa - pb)
        | _, _ => none
      (Except.ok
        { change_point_date := change_point_date
          mu1 := mu1
          mu2 := mu2
          impact_log := impact_log
          impact_percent := impact_percent
          impact_usd := impact_usd
          price_before := price_before
          price_after := price_after
          nearby_events := nearby
          closest_event := nearby.head?
          window_days := window_days }, s')

/-- `find_nearby_events` writes nothing to the associator state. -/
theorem find_nearby_events_state (s : EventAssociator) (d w : ℤ) :
    (find_nearby_events s d w).2 = s := by
  unfold find_nearby_events
  cases s.events <;> rfl

/-- `associate_change_point` writes nothing to the associator state. -/
theorem associate_change_point_state (s : EventAssociator) (d : ℤ)
    (mu1 mu2 : ℝ) (pb pa : Option ℝ) (w : ℤ) :
    (associate_change_point s d mu1 mu2 pb pa w).2 = s := by
  have h1 := find_nearby_events_state s d w
  unfold associate_change_point
  rcases hfp : find_nearby_events s d w with ⟨r, s'⟩
  have hs' : s' = s := by rw [← h1, hfp]
  cases r <;> simp [hs']

/-- C10: every call to `find_nearby_events` (and hence to
`associate_change_point`) leaves the loaded event catalog unchanged — the
proximity annotations are attached to a copy — so any later call observes
exactly the state present at construction and returns the same result. -/
theorem catalog_read_only (s : EventAssociator) (d w : ℤ) (mu1 mu2 : ℝ)
    (pb pa : Option ℝ) :
    (find_nearby_events s d w).2 = s ∧
      (associate_change_point s d mu1 mu2 pb pa w).2 = s ∧
      (find_nearby_events ((associate_change_point s d mu1 mu2 pb pa w).2) d w).1 =
        (find_nearby_events s d w).1 :=
  ⟨find_nearby_events_state s d w,
   associate_change_point_state s d mu1 mu2 pb pa w,
   by rw [associate_change_point_state s d mu1 mu2 pb pa w]⟩

/-- C9: for a date with zero catalog events inside the window,
`find_nearby_events` returns an empty list (not an error), and
`associate_change_point` on that date still succeeds, with
`closest_event = none` and an empty nearby-events list. -/
theorem associate_empty_window (s : EventAssociator) (events : List EventRecord)
    (d w : ℤ) (mu1 mu2 : ℝ) (pb pa : Option ℝ)
    (hs : s.events = some events)
    (hw : ∀ e ∈ events, in_window (d - w) (d + w) e = false) :
    (find_nearby_events s d w).1 = Except.ok [] ∧
      ∃ a, (associate_change_point s d mu1 mu2 pb pa w).1 = Except.ok a ∧
        a.closest_event = none ∧ a.nearby_events = [] := by
  have hfilter : events.filter (in_window (d - w) (d + w)) = [] :=
    List.filter_eq_nil_iff.mpr (fun e he => by simp [hw e he])
  have hfind : (find_nearby_events s d w).1 = Except.ok [] := by
    unfold find_nearby_events
    rw [hs]
    simp [hfilter, List.insertionSort]
  refine ⟨hfind, ?_⟩
  have h1 := find_nearby_events_state s d w
  rcases hfp : find_nearby_events s d w with ⟨r, s'⟩
  have hr : r = Except.ok [] := by rw [hfp] at hfind; exact hfind
  unfold associate_change_point
  rw [hfp, hr]
  exact ⟨_, rfl, rfl, rfl⟩

/-- C9 witness: an associator holding one catalog event 1000 days away from
the change point, searched with a 90-day window. -/
theorem associate_empty_window_witness :
    (find_nearby_events ⟨some [⟨1000, "Far event", "Conflict", "Global", "High"⟩]⟩
        0 90).1 = Except.ok [] ∧
      ∃ a, (associate_change_point
          ⟨some [⟨1000, "Far event", "Conflict", "Global", "High"⟩]⟩
          0 1 2 none none 90).1 = Except.ok a ∧
        a.closest_event = none ∧ a.nearby_events = [] :=
  associate_empty_window ⟨some [⟨1000, "Far event", "Conflict", "Global", "High"⟩]⟩
    [⟨1000, "Far event", "Conflict", "Global", "High"⟩] 0 90 1 2 none none rfl
    (by decide)

/-- C2: the association engine computes
`impact_percent = (exp(mu2 - mu1) - 1) * 100`, the posterior summarizer
computes `impact_percent = (mean(impact draws) / mean(mu1 draws)) * 100`, and
the two disagree for the same underlying before/after means: with before mean
1 and after mean 2 the associator returns `(e - 1) * 100 ≈ 171.8` while the
summarizer returns `100`. -/
theorem impact_percent_two_formulas :
    (∀ (s : EventAssociator) (d : ℤ) (mu1 mu2 : ℝ) (pb pa : Option ℝ) (w : ℤ)
        (a : Association),
        (associate_change_point s d mu1 mu2 pb pa w).1 = Except.ok a →
        a.impact_percent = (Real.exp (mu2 - mu1) - 1) * 100) ∧
      (∀ mu1s mu2s sigmas : List ℚ,
        (get_parameter_posteriors mu1s mu2s sigmas).impact_percent =
          (npMean (List.zipWith (fun x y => x - y) mu2s mu1s) / npMean mu1s) * 100) ∧
      ∃ a : Association,
        (associate_change_point ⟨some []⟩ 0 1 2 none none 90).1 = Except.ok a ∧
          a.impact_percent ≠ ((get_parameter_posteriors [1] [2] [1]).impact_percent : ℝ) := by
  refine ⟨?_, fun _ _ _ => rfl, ?_⟩
  · intro s d mu1 mu2 pb pa w a h
    unfold associate_change_point at h
    rcases hfp : find_nearby_events s d w with ⟨r, s'⟩
    rw [hfp] at h
    cases r with
    | error e => simp at h
    | ok nearby =>
      simp only [Except.ok.injEq] at h
      rw [← h]
  · refine ⟨_, rfl, ?_⟩
    have hq : (get_parameter_posteriors [1] [2] [1]).impact_percent = 100 := by
      norm_num [get_parameter_posteriors, npMean, List.zipWith]
    rw [hq]
    have he := Real.exp_one_gt_d9
    show (Real.exp ((2 : ℝ) - 1) - 1) * 100 ≠ ((100 : ℚ) : ℝ)
    norm_num
    nlinarith [he]

/-! ## Posterior summary of the change point (`get_change_point_posterior`) -/

/-- Truncation toward zero: Python's `int()` cast applied to a (nonnegative
or negative) float. -/
def int_trunc (q : ℚ) : ℤ := if 0 ≤ q then ⌊q⌋ else -⌊-q⌋

/-- `np.median` over integer samples: sort, take the middle element for odd
length, the average of the two middle elements for even length. -/
def npMedianInt (l : List ℤ) : ℚ :=
  let s := List.insertionSort (· ≤ ·) l
  if l.length % 2 = 1 then ((s.getD (l.length / 2) 0 : ℤ) : ℚ)
  else (((s.getD (l.length / 2 - 1) 0 : ℤ) : ℚ) + ((s.getD (l.length / 2) 0 : ℤ) : ℚ)) / 2

/-- `pd.Series.mode()`: the values attaining the maximal occurrence count,
listed in ascending order (pandas sorts the mode values). -/
def pd_mode (l : List ℤ) : List ℤ :=
  let uniq := (List.insertionSort (· ≤ ·) l).dedup
  let maxc := (uniq.map (fun v => l.count v)).foldr max 0
  uniq.filter (fun v => decide (l.count v = maxc))

/-- An element of a list of naturals is bounded by the `foldr max` over it. -/
theorem le_foldr_max (a : ℕ) : ∀ (l : List ℕ) (b : ℕ), a ∈ l → a ≤ l.foldr max b
  | [], _, h => absurd h (List.not_mem_nil a)
  | x :: xs, b, h => by
    rcases List.mem_cons.mp h with heq | hmem
    · rw [heq]; exact le_max_left _ _
    · exact le_trans (le_foldr_max a xs b hmem) (le_max_right _ _)

/-- `foldr max` over a list of naturals is attained by an element or equals
the initial accumulator. -/
theorem foldr_max_mem : ∀ (l : List ℕ) (b : ℕ), l.foldr max b ∈ l ∨ l.foldr max b = b
  | [], b => Or.inr rfl
  | x :: xs, b => by
    rcases le_total (xs.foldr max b) x with hle | hle
    · left
      rw [List.foldr_cons, max_eq_left hle]
      exact List.mem_cons_self _ _
    · rw [List.foldr_cons, max_eq_right hle]
      rcases foldr_max_mem xs b with hmem | heq
      · exact Or.inl (List.mem_cons_of_mem _ hmem)
      · exact Or.inr heq

/-- The head of `pd_mode l` for nonempty `l` is a most frequent value of `l`,
and the least such value. -/
theorem pd_mode_head_spec (l : List ℤ) (hne : l ≠ []) :
    ∃ m, (pd_mode l).head? = some m ∧ m ∈ l ∧
      (∀ v ∈ l, l.count v ≤ l.count m) ∧
      (∀ v ∈ l, l.count v = l.count m → m ≤ v) := by
  have hmem_uniq : ∀ v : ℤ, v ∈ (List.insertionSort (· ≤ ·) l).dedup ↔ v ∈ l := by
    intro v
    rw [List.mem_dedup, (List.perm_insertionSort (· ≤ ·) l).mem_iff]
  have hsorted_uniq : (List.insertionSort (· ≤ ·) l).dedup.Pairwise (· ≤ ·) :=
    List.Pairwise.sublist (List.dedup_sublist _) (List.sorted_insertionSort (· ≤ ·) l)
  set uniq := (List.insertionSort (· ≤ ·) l).dedup with huniq
  set maxc := (uniq.map (fun v => l.count v)).foldr max 0 with hmaxc
  have hle_max : ∀ v ∈ l, l.count v ≤ maxc := fun v hv =>
    le_foldr_max _ _ _ (List.mem_map_of_mem _ ((hmem_uniq v).mpr hv))
  have hattained : ∃ u ∈ uniq, l.count u = maxc := by
    rcases foldr_max_mem (uniq.map (fun v => l.count v)) 0 with hmem | heq
    · rcases List.mem_map.mp hmem with ⟨u, hu, hcount⟩
      exact ⟨u, hu, hcount⟩
    · exfalso
      rcases List.exists_mem_of_ne_nil l hne with ⟨x, hx⟩
      have h1 : 0 < l.count x := List.count_pos_iff.mpr hx
      have h2 : l.count x ≤ maxc := hle_max x hx
      omega
  rcases hattained with ⟨u, hu, hcu⟩
  have hufil : u ∈ uniq.filter (fun v => decide (l.count v = maxc)) :=
    List.mem_filter.mpr ⟨hu, by simp [hcu]⟩
  have hfil_sorted : (uniq.filter (fun v => decide (l.count v = maxc))).Pairwise (· ≤ ·) :=
    hsorted_uniq.filter _
  cases hf : uniq.filter (fun v => decide (l.count v = maxc)) with
  | nil => rw [hf] at hufil; exact absurd hufil (List.not_mem_nil u)
  | cons m ms =>
    have hmfil : m ∈ uniq.filter (fun v => decide (l.count v = maxc)) := by
      rw [hf]; exact List.mem_cons_self _ _
    have hm_uniq := List.mem_filter.mp hmfil
    have hm_count : l.count m = maxc := by
      have := hm_uniq.2
      simpa using this
    refine ⟨m, by rw [pd_mode, ← huniq, ← hmaxc, hf]; rfl, (hmem_uniq m).mp hm_uniq.1,
      fun v hv => hm_count ▸ hle_max v hv, fun v hv hcv => ?_⟩
    have hvfil : v ∈ uniq.filter (fun v => decide (l.count v = maxc)) :=
      List.mem_filter.mpr ⟨(hmem_uniq v).mpr hv, by simp [hcv, hm_count]⟩
    rw [hf] at hvfil
    rcases List.mem_cons.mp hvfil with heq | hvms
    · rw [heq]
    · rw [hf] at hfil_sorted
      exact (List.pairwise_cons.mp hfil_sorted).1 v hvms

/-- The summary record built by
`BayesianChangePointModel.get_change_point_posterior` (lines 237–310), for the
fields computed by the repository's own code: the per-draw samples flattened
across chains (line 266), the mean, the median cast to an integer with `int()`
(lines 270 and 291), and pandas' mode with `[0]` selecting the first — i.e.
smallest — of the most frequent values (line 279).  The 95% HDI bounds and
the calendar resolution are external library calls (`az.hdi`, index lookup)
that no claim references. -/
structure ChangePointPosterior where
  tau_mean : ℚ
  tau_median : ℤ
  tau_mode : ℤ
  tau_samples : List ℤ
deriving DecidableEq

def get_change_point_posterior (trace : Option (List (List ℤ))) :
    Except String ChangePointPosterior :=
  match trace with
  | none => Except.error
      "Error extracting change point posterior: No trace available. Run sample() first."
  | some chains =>
      let tau_samples := chains.flatten
      match (pd_mode tau_samples).head? with
      | none => Except.error "Error extracting change point posterior: 0"
      | some m =>
          Except.ok
            { tau_mean := (tau_samples.sum : ℚ) / (tau_samples.length : ℚ)
              tau_median := int_trunc (npMedianInt tau_samples)
              tau_mode := m
              tau_samples := tau_samples }

/-- C6: the change-point summarizer flattens the `tau` draws across chains,
reports the median cast to an integer observation index, and reports as mode
the most frequent integer value, ties in frequency resolved to the smallest
tied value (the first in pandas' ascending mode enumeration). -/
theorem change_point_posterior_median_mode (chains : List (List ℤ))
    (hne : chains.flatten ≠ []) :
    ∃ r, get_change_point_posterior (some chains) = Except.ok r ∧
      r.tau_samples = chains.flatten ∧
      r.tau_median = int_trunc (npMedianInt chains.flatten) ∧
      r.tau_mode ∈ chains.flatten ∧
      (∀ v ∈ chains.flatten, chains.flatten.count v ≤ chains.flatten.count r.tau_mode) ∧
      (∀ v ∈ chains.flatten,
        chains.flatten.count v = chains.flatten.count r.tau_mode → r.tau_mode ≤ v) := by
  obtain ⟨m, hm, hmem, hmax, hleast⟩ := pd_mode_head_spec chains.flatten hne
  simp only [get_change_point_posterior]
  rw [hm]
  exact ⟨_, rfl, rfl, rfl, hmem, hmax, hleast⟩

/-- C6 witness: chains `[[3, 5], [5, 3, 4]]` flatten to `[3, 5, 5, 3, 4]`;
the counts of 3 and 5 tie at two, and the reported mode is the smaller tied
value 3; the median of the sorted samples `[3, 3, 4, 5, 5]` is 4. -/
theorem change_point_posterior_median_mode_witness :
    ∃ r, get_change_point_posterior (some ([[3, 5], [5, 3, 4]] : List (List ℤ))) = Except.ok r ∧
      r.tau_samples = ([[3, 5], [5, 3, 4]] : List (List ℤ)).flatten ∧
      r.tau_median = int_trunc (npMedianInt ([[3, 5], [5, 3, 4]] : List (List ℤ)).flatten) ∧
      r.tau_mode ∈ ([[3, 5], [5, 3, 4]] : List (List ℤ)).flatten ∧
      (∀ v ∈ ([[3, 5], [5, 3, 4]] : List (List ℤ)).flatten,
        ([[3, 5], [5, 3, 4]] : List (List ℤ)).flatten.count v ≤
          ([[3, 5], [5, 3, 4]] : List (List ℤ)).flatten.count r.tau_mode) ∧
      (∀ v ∈ ([[3, 5], [5, 3, 4]] : List (List ℤ)).flatten,
        ([[3, 5], [5, 3, 4]] : List (List ℤ)).flatten.count v =
            ([[3, 5], [5, 3, 4]] : List (List ℤ)).flatten.count r.tau_mode →
          r.tau_mode ≤ v) :=
  change_point_posterior_median_mode [[3, 5], [5, 3, 4]] (by decide)

/-! ## Convergence diagnostics (`check_convergence`) -/

/-- The posterior trace as seen by `check_convergence`: the variable names
present in `trace.posterior.data_vars` (line 171), and — when the `az.summary`
table exposes an `r_hat` column (line 200) — the scale-reduction value
reported for each variable.  `r_hat_column := none` models a summary without
that column. -/
structure Trace where
  available_vars : List String
  r_hat_column : Option (String → ℚ)

/-- Python's `str.endswith`, evaluated on the character lists (the
byte-offset implementation of `String.endsWith` is not kernel-reducible). -/
def str_ends_with (s suffix : String) : Bool := suffix.data.isSuffixOf s.data

/-- The name-resolution helper defined inside `check_convergence`
(lines 176–183): for each requested name, the first available variable equal
to it or ending in `::name` (a model-name prefix); requested names with no
match are skipped. -/
def find_vars (available requested : List String) : List String :=
  requested.filterMap
    (fun req => available.find? (fun v => str_ends_with v ("::" ++ req) || v == req))

/-- The tracked parameter names (line 185). -/
def requested_vars : List String := ["tau", "mu1", "mu2", "sigma"]

/-- The dictionary returned by `check_convergence` (lines 215–221), minus the
raw summary table: the overall verdict (`None` when `r_hat` was unavailable),
the per-variable scale reductions, the variables the summary was computed
over, and the variables available in the trace. -/
structure ConvergenceResults where
  converged : Option Bool
  r_hat : List (String × ℚ)
  summary_vars : List String
  available_vars : List String

/-- `BayesianChangePointModel.check_convergence` (lines 157–235): resolve the
tracked names, falling back to all available variables when none of them
resolve (lines 188–194); compute the summary over the resolved variables; the
verdict is `all(r < 1.01)` over the reported scale reductions (lines 200–202),
degraded to `None` when the summary has no `r_hat` column (lines 203–206).
The only raise is for a missing trace (lines 165–168, re-wrapped by the
`except` clause). -/
def check_convergence (trace : Option Trace) : Except String ConvergenceResults :=
  match trace with
  | none => Except.error
      "Error checking convergence: No trace available. Run sample() first."
  | some t =>
      let found := find_vars t.available_vars requested_vars
      let var_names := if found.isEmpty then t.available_vars else found
      match t.r_hat_column with
      | some rhat =>
          let r_hat := var_names.map (fun v => (v, rhat v))
          Except.ok
            { converged := some (r_hat.all (fun p => decide (p.2 < 101 / 100)))
              r_hat := r_hat
              summary_vars := var_names
              available_vars := t.available_vars }
      | none =>
          Except.ok
            { converged := none
              r_hat := []
              summary_vars := var_names
              available_vars := t.available_vars }

/-- C4: given any trace, `check_convergence` never fails: expected names are
resolved allowing a model-name prefix, with a fallback to all available
variables when none resolve; the overall verdict is the conjunction over the
resolved variables of `r_hat < 1.01` (strict), and when the scale-reduction
statistic is unavailable the verdict degrades to the null value `none` instead
of an error. -/
theorem check_convergence_robust (t : Trace) :
    ∃ r, check_convergence (some t) = Except.ok r ∧
      r.summary_vars = (if (find_vars t.available_vars requested_vars).isEmpty
        then t.available_vars else find_vars t.available_vars requested_vars) ∧
      (find_vars t.available_vars requested_vars = [] →
        r.summary_vars = t.available_vars) ∧
      (∀ req ∈ requested_vars, ∀ v,
        t.available_vars.find?
          (fun v' => str_ends_with v' ("::" ++ req) || v' == req) = some v →
        v ∈ find_vars t.available_vars requested_vars) ∧
      (∀ f, t.r_hat_column = some f →
        (r.converged = some true ↔ ∀ v ∈ r.summary_vars, f v < 101 / 100)) ∧
      (t.r_hat_column = none → r.converged = none) := by
  obtain ⟨avail, rcol⟩ := t
  cases rcol with
  | some f =>
      refine ⟨_, rfl, rfl, fun h => by simp [h],
        fun req hreq v hfind => List.mem_filterMap.mpr ⟨req, hreq, hfind⟩,
        fun f' hf' => ?_, fun hn => by exact absurd hn (by simp)⟩
      replace hf' := Option.some.inj hf'
      subst hf'
      show some _ = some true ↔ _
      simp only [Option.some.injEq, List.all_eq_true, List.mem_map, decide_eq_true_eq]
      constructor
      · intro h v hv
        exact h (v, f v) ⟨v, hv, rfl⟩
      · rintro h p ⟨v, hv, rfl⟩
        exact h v hv
  | none =>
      exact ⟨_, rfl, rfl, fun h => by simp [h],
        fun req hreq v hfind => List.mem_filterMap.mpr ⟨req, hreq, hfind⟩,
        fun f' hf' => by exact absurd hf' (by simp), fun _ => rfl⟩

/-- C4 witness: a trace whose variables all carry the model-name prefix
`change_point_model::` and whose reported scale reduction is 1 everywhere is
resolved through the prefix path and graded converged. -/
theorem check_convergence_robust_witness :
    ∃ r, check_convergence (some ⟨["change_point_model::tau", "change_point_model::mu1",
        "change_point_model::mu2", "change_point_model::sigma"], some (fun _ => 1)⟩) =
        Except.ok r ∧
      r.summary_vars = ["change_point_model::tau", "change_point_model::mu1",
        "change_point_model::mu2", "change_point_model::sigma"] ∧
      r.converged = some true := by
  obtain ⟨r, hok, hsum, _, _, hiff, _⟩ := check_convergence_robust
    ⟨["change_point_model::tau", "change_point_model::mu1",
      "change_point_model::mu2", "change_point_model::sigma"], some (fun _ => 1)⟩
  refine ⟨r, hok, ?_, ?_⟩
  · rw [hsum]
    decide
  · refine (hiff (fun _ => 1) rfl).mpr (fun v _ => by norm_num)

/-! ## Impact statement formatting (`format_impact_statement`) -/

/-- Whether the pattern is a prefix of the text, on character lists. -/
def starts_with_chars : List Char → List Char → Bool
  | [], _ => true
  | _ :: _, [] => false
  | c :: p, d :: t => c == d && starts_with_chars p t

/-- Whether the pattern occurs as a contiguous substring of the text. -/
def has_chars (p : List Char) : List Char → Bool
  | [] => p.isEmpty
  | d :: t => starts_with_chars p (d :: t) || has_chars p t

/-- Python's `in` test on strings. -/
def str_has (pat s : String) : Bool := has_chars pat.data s.data

theorem starts_with_chars_refl_append (p r : List Char) :
    starts_with_chars p (p ++ r) = true := by
  induction p with
  | nil => rfl
  | cons c cs ih => simp [starts_with_chars, ih]

theorem has_chars_append_right (p s t : List Char) (h : has_chars p t = true) :
    has_chars p (s ++ t) = true := by
  induction s with
  | nil => exact h
  | cons d ds ih =>
      rw [List.cons_append, has_chars, Bool.or_eq_true]
      exact Or.inr ih

theorem has_chars_self_append (p r : List Char) : has_chars p (p ++ r) = true := by
  cases p with
  | nil => cases r <;> simp [has_chars, starts_with_chars, List.isEmpty]
  | cons c cs =>
      rw [List.cons_append, has_chars, Bool.or_eq_true]
      exact Or.inl (starts_with_chars_refl_append (c :: cs) r)

theorem str_has_append_right (pat s t : String) (h : str_has pat t = true) :
    str_has pat (s ++ t) = true := by
  unfold str_has at h ⊢
  rw [String.data_append]
  exact has_chars_append_right _ _ _ h

theorem str_has_prefix_append (p r : String) : str_has p (p ++ r) = true := by
  unfold str_has
  rw [String.data_append]
  exact has_chars_self_append _ _

theorem str_has_sandwich (x m y : String) : str_has m ((x ++ m) ++ y) = true := by
  rw [String.append_assoc]
  exact str_has_append_right m x (m ++ y) (str_has_prefix_append m y)

/-- The decimal digit characters used by Python's number rendering. -/
def digit_char (n : ℕ) : Char :=
  match n with
  | 0 => '0' | 1 => '1' | 2 => '2' | 3 => '3' | 4 => '4'
  | 5 => '5' | 6 => '6' | 7 => '7' | 8 => '8' | _ => '9'

/-- Decimal rendering of a natural number (fuel-based so that it reduces by
`decide`/`rfl`). -/
def nat_repr_aux : ℕ → ℕ → List Char
  | 0, _ => []
  | fuel + 1, n =>
      if n < 10 then [digit_char n]
      else nat_repr_aux fuel (n / 10) ++ [digit_char (n % 10)]

def nat_repr (n : ℕ) : String := String.mk (nat_repr_aux (n + 1) n)

theorem digit_char_ne_dash (n : ℕ) : digit_char n ≠ '-' := by
  unfold digit_char
  split <;> decide

theorem nat_repr_aux_digits : ∀ fuel n, ∀ c ∈ nat_repr_aux fuel n, c ≠ '-'
  | 0, _, c, h => absurd h (List.not_mem_nil c)
  | fuel + 1, n, c, h => by
    rw [nat_repr_aux] at h
    by_cases hn : n < 10
    · rw [if_pos hn, List.mem_singleton] at h
      rw [h]
      exact digit_char_ne_dash n
    · rw [if_neg hn] at h
      rcases List.mem_append.mp h with h1 | h2
      · exact nat_repr_aux_digits fuel (n / 10) c h1
      · rw [List.mem_singleton] at h2
        rw [h2]
        exact digit_char_ne_dash _

/-- Rendering of a (scaled-by-100, rounded) amount as a fixed two-decimal
string, as CPython's `format(x, '.2f')` renders the nonnegative magnitudes
this module formats. -/
def fmt_frac2 (n : ℤ) : String :=
  nat_repr (n.toNat / 100) ++ "." ++
    (if n.toNat % 100 < 10 then "0" ++ nat_repr (n.toNat % 100)
     else nat_repr (n.toNat % 100))

/-- `f"{x:.2f}"`: scale by 100 and round to the nearest integer (half away
from zero at the real level; the binary double's own rounding of literals is
immaterial to the checked claims, which involve no decimal ties). -/
noncomputable def fmt2 (x : ℝ) : String := fmt_frac2 ⌊x * 100 + 1 / 2⌋

theorem fmt_frac2_no_dash (n : ℤ) : ∀ c ∈ (fmt_frac2 n).data, c ≠ '-' := by
  intro c hc
  unfold fmt_frac2 at hc
  by_cases h10 : n.toNat % 100 < 10
  · rw [if_pos h10] at hc
    simp only [String.data_append] at hc
    rcases List.mem_append.mp hc with h1 | h2
    · rcases List.mem_append.mp h1 with h3 | h4
      · exact nat_repr_aux_digits _ _ c h3
      · rw [List.mem_singleton.mp h4]; decide
    · rcases List.mem_append.mp h2 with h3 | h4
      · rw [List.mem_singleton.mp h3]; decide
      · exact nat_repr_aux_digits _ _ c h4
  · rw [if_neg h10] at hc
    simp only [String.data_append] at hc
    rcases List.mem_append.mp hc with h1 | h2
    · rcases List.mem_append.mp h1 with h3 | h4
      · exact nat_repr_aux_digits _ _ c h3
      · rw [List.mem_singleton.mp h4]; decide
    · exact nat_repr_aux_digits _ _ c h2

/-- The day-number rendering standing in for
`change_point_date.strftime('%B %d, %Y')` (line 190); the claims under
verification do not constrain the date token of the sentence. -/
def date_str (d : ℤ) : String :=
  if d < 0 then "-" ++ nat_repr (-d).toNat else nat_repr d.toNat

/-- The sentence built by `format_impact_statement` before the final
percentage clause (lines 192–211): the date/event opening, plus the optional
price-shift clause when both price levels are present. -/
noncomputable def statement_opening (a : Association) (event_name : Option String) :
    String :=
  let date_s := date_str a.change_point_date
  let base :=
    match event_name with
    | some name =>
        "Following the " ++ name ++ " around " ++ date_s ++
          ", the model detects a change point"
    | none => "On " ++ date_s ++ ", the model detects a change point"
  match a.price_before, a.price_after with
  | some pb, some pa =>
      base ++ ", with the average daily price shifting from $" ++ fmt2 pb ++
        " to $" ++ fmt2 pa
  | _, _ => base

/-- `EventAssociator.format_impact_statement` (lines 168–222): the sentence
prefix followed by `", a {direction} of {abs(impact_percent):.2f}%."` with
`direction = "increase" if impact_percent > 0 else "decrease"`
(lines 213–215). -/
noncomputable def format_impact_statement (a : Association)
    (event_name : Option String) : String :=
  statement_opening a event_name ++ ", a " ++
    (if 0 < a.impact_percent then "increase" else "decrease") ++ " of " ++
    fmt2 |a.impact_percent| ++ "%."

/-- The spec's Section 8 example: an association whose `impact_percent` is
`-12.34`. -/
noncomputable def neg_example_association : Association :=
  { change_point_date := 0
    mu1 := 0
    mu2 := 0
    impact_log := 0
    impact_percent := -12.34
    impact_usd := none
    price_before := none
    price_after := none
    nearby_events := []
    closest_event := none
    window_days := 90 }

theorem str_has_of_middle (x m y z w : String) :
    str_has m (x ++ m ++ y ++ z ++ w) = true := by
  rw [String.append_assoc ((x ++ m) ++ y) z w, String.append_assoc (x ++ m) y (z ++ w)]
  exact str_has_sandwich x m (y ++ (z ++ w))

/-- C7: the rendered sentence uses direction word `"increase"` when
`impact_percent > 0` and `"decrease"` otherwise; the magnitude is the absolute
value of `impact_percent` formatted to two decimal places and never carries a
negative sign; at the concrete `impact_percent = -12.34` the output contains
`"decrease"` and `"12.34%"` and no negative sign at all. -/
theorem format_impact_statement_spec (a : Association) (name : Option String) :
    (0 < a.impact_percent →
      str_has "increase" (format_impact_statement a name) = true) ∧
    (¬ 0 < a.impact_percent →
      str_has "decrease" (format_impact_statement a name) = true) ∧
    format_impact_statement a name =
      statement_opening a name ++ ", a " ++
        (if 0 < a.impact_percent then "increase" else "decrease") ++ " of " ++
        fmt2 |a.impact_percent| ++ "%." ∧
    (∀ c ∈ (fmt2 |a.impact_percent|).data, c ≠ '-') ∧
    str_has "decrease" (format_impact_statement neg_example_association none) = true ∧
    str_has "12.34%" (format_impact_statement neg_example_association none) = true ∧
    str_has "-" (format_impact_statement neg_example_association none) = false := by
  have habs : |(neg_example_association).impact_percent| = (12.34 : ℝ) := by
    rw [show (neg_example_association).impact_percent = -12.34 from rfl, abs_neg]
    exact abs_of_nonneg (by norm_num)
  have hfloor : (⌊(12.34 : ℝ) * 100 + 1 / 2⌋ : ℤ) = 1234 := by
    have h1234 : (12.34 : ℝ) * 100 + 1 / 2 = 1234 + 1 / 2 := by norm_num
    rw [h1234, Int.floor_eq_iff]
    constructor <;> norm_num
  have hfmt : fmt2 |(neg_example_association).impact_percent| = "12.34" := by
    rw [fmt2, habs, hfloor]
    decide
  have hneg : ¬ (0 : ℝ) < (neg_example_association).impact_percent := by
    rw [show (neg_example_association).impact_percent = -12.34 from rfl]
    norm_num
  have hpre : statement_opening neg_example_association none =
      "On " ++ date_str 0 ++ ", the model detects a change point" := rfl
  have hconc : format_impact_statement neg_example_association none =
      "On 0, the model detects a change point, a decrease of 12.34%." := by
    unfold format_impact_statement
    rw [hpre, if_neg hneg, hfmt]
    decide
  refine ⟨fun h => ?_, fun h => ?_, rfl, fun c hc => fmt_frac2_no_dash _ c hc,
    by rw [hconc]; decide, by rw [hconc]; decide, by rw [hconc]; decide⟩
  · unfold format_impact_statement
    rw [if_pos h]
    exact str_has_of_middle (statement_opening a name ++ ", a ") "increase" " of " _ "%."
  · unfold format_impact_statement
    rw [if_neg h]
    exact str_has_of_middle (statement_opening a name ++ ", a ") "decrease" " of " _ "%."

/-- C7 witness: the direction rule applied at a negative (−12.34) and a
positive (12.34) impact percentage. -/
theorem format_impact_statement_spec_witness :
    str_has "decrease" (format_impact_statement neg_example_association none) = true ∧
    str_has "increase" (format_impact_statement
      { neg_example_association with impact_percent := 12.34 } none) = true :=
  ⟨(format_impact_statement_spec neg_example_association none).2.1
      (by show ¬ (0 : ℝ) < -12.34; norm_num),
   (format_impact_statement_spec
      { neg_example_association with impact_percent := 12.34 } none).1
      (by show (0 : ℝ) < 12.34; norm_num)⟩

/-- C2 witness: on an empty catalog with before mean 1 and after mean 2, the
association succeeds and its `impact_percent` is the exponential transform
`(exp(2 - 1) - 1) * 100`. -/
theorem impact_percent_two_formulas_witness :
    ∃ a : Association,
      (associate_change_point ⟨some []⟩ 0 1 2 none none 90).1 = Except.ok a ∧
        a.impact_percent = (Real.exp ((2 : ℝ) - 1) - 1) * 100 := by
  obtain ⟨a, ha, _⟩ := impact_percent_two_formulas.2.2
  exact ⟨a, ha, impact_percent_two_formulas.1 ⟨some []⟩ 0 1 2 none none 90 a ha⟩
